import Mathlib

/-!
Shallow embedding of the browser-memory enhancement service
(src/cloud-agents/browser-enhancer/app/server.py and app/agent.py).

Modelling conventions:
- Python floats are modelled as exact rationals.
- Python str.strip is modelled over the character list of the string.
- The JSON-like dictionaries (agentInsights, processingDetails) are modelled
  as ordered association lists over a small JSON value type.
- The external agent stream (langgraph) and the crew kickoff (crewai) are
  effectful external calls; they are modelled as explicit parameters whose
  result is an Except value, with the error constructor standing for a
  raised exception.
-/

/-- A JSON-serializable value, as stored in the response dictionaries. -/
inductive Jval where
  | str (s : String)
  | num (q : ℚ)
  | bool (b : Bool)
  | arr (xs : List Jval)

/-- Lookup of a key in an ordered string-keyed dictionary. -/
def jget (d : List (String × Jval)) (k : String) : Option Jval :=
  match d with
  | [] => none
  | (k2, v) :: rest => if k2 = k then some v else jget rest k

/-- Model of Python str.strip: drop whitespace from both ends. -/
def pyStrip (s : String) : String :=
  String.mk (((s.data.dropWhile Char.isWhitespace).reverse.dropWhile Char.isWhitespace).reverse)

/-- The predicate that a string occurs inside another string. -/
def containsText (s sub : String) : Prop := ∃ a b, s = a ++ sub ++ b

/-- server.py, class BrowserMemory (a pydantic model; similarity is a plain
float field, carrying no range constraint). -/
structure BrowserMemory where
  title : String
  content : String
  url : String
  similarity : ℚ
  timestamp : String := ""
deriving DecidableEq

/-- server.py, class BrowserMemoryRequest. -/
structure BrowserMemoryRequest where
  query : String
  relevantMemories : List BrowserMemory
  userContext : List String := []
deriving DecidableEq

/-- server.py, class EnhancementResponse. -/
structure EnhancementResponse where
  enhancedResponse : String
  agentInsights : List (String × Jval) := []
  processingDetails : List (String × Jval) := []

/-- An HTTP reply of the /enhance endpoint: status code plus body. -/
structure HttpReply where
  status : ℕ
  body : EnhancementResponse

/-- Round a rational to the nearest integer, ties to even (the tie-breaking
rule of Python float formatting). -/
def roundHalfEven (q : ℚ) : ℤ :=
  let lower : ℤ := q.floor
  let frac : ℚ := q - (lower : ℚ)
  if frac < 1/2 then lower
  else if 1/2 < frac then lower + 1
  else if lower % 2 = 0 then lower else lower + 1

/-- Model of the Python format specifier :.2f on a (rational-modelled)
float: fixed-point rendering with two digits after the point. -/
def formatFixed2 (q : ℚ) : String :=
  let scaled : ℤ := roundHalfEven (q * 100)
  let sign : String := if scaled < 0 then "-" else ""
  let a : ℕ := scaled.natAbs
  sign ++ toString (a / 100) ++ "." ++ (if a % 100 < 10 then "0" else "") ++ toString (a % 100)

/-- server.py lines 119-132: the content of the single HumanMessage passed to
the agent.  memories_text renders each memory as a Title/URL/Content/Relevance
block, blocks joined with blank lines; user_context_text joins the context
strings with newlines, or is a fixed placeholder when the list is empty
(Python truthiness of the list). -/
def request_content (request : BrowserMemoryRequest) : String :=
  let memories_text := String.intercalate "\n\n" (request.relevantMemories.map (fun memory =>
    "Title: " ++ memory.title ++ "\n"
      ++ "URL: " ++ memory.url ++ "\n"
      ++ "Content: " ++ memory.content ++ "\n"
      ++ "Relevance: " ++ formatFixed2 memory.similarity))
  let user_context_text :=
    if !request.userContext.isEmpty then String.intercalate "\n" request.userContext
    else "No previous context"
  "Query: " ++ request.query ++ "\n\nRelevant Memories:\n" ++ memories_text
    ++ "\n\nUser Context:\n" ++ user_context_text

/-- A tool call attached to a chat message (id and tool name). -/
structure ToolCall where
  id : String
  toolName : String
deriving DecidableEq

/-- A chat message: role, content, and the tool calls it carries. -/
structure ChatMessage where
  role : String := ""
  content : String := ""
  tool_calls : List ToolCall := []
deriving DecidableEq

/-- A chunk yielded by agent.stream; none models a chunk carrying no
messages key. -/
structure StreamChunk where
  messages : Option (List ChatMessage)

/-- server.py lines 140-145: accumulate the contents of all messages of all
chunks (skipping messages with empty content, by Python truthiness). -/
def collect_response_content (chunks : List StreamChunk) : String :=
  chunks.foldl (fun response_content chunk =>
    match chunk.messages with
    | some msgs => msgs.foldl (fun acc message =>
        if message.content != "" then acc ++ message.content else acc) response_content
    | none => response_content) ""

/-- server.py lines 155-167: the response body built on the success path. -/
def enhanceSuccessBody (request : BrowserMemoryRequest) (response_content : String) :
    EnhancementResponse :=
  { enhancedResponse := response_content,
    agentInsights := [
      ("memoriesAnalyzed", .num (request.relevantMemories.length : ℚ)),
      ("topTopics", .arr ((request.relevantMemories.take 3).map (fun memory => .str memory.title))),
      ("averageRelevance", .num (if request.relevantMemories.isEmpty then 0
          else (request.relevantMemories.map (fun m => m.similarity)).sum
            / (request.relevantMemories.length : ℚ)))],
    processingDetails := [
      ("agentType", .str "multi_agent_crew"),
      ("model", .str "gpt-3.5-turbo"),
      ("processedAt", .str "local_testing")] }

/-- server.py line 178: the fixed leading text of the degraded response,
up to (and including) the opening quote around the query. -/
def errApologyIntro : String :=
  "I apologize, but I encountered an error while processing your request. Here\x27s what I can tell you based on your query \x27"

/-- server.py line 179: the memory-count sentence of the degraded response. -/
def errMemoriesLine (n : ℕ) : String :=
  "You have " ++ toString n ++ " relevant memories that might help answer this question."

/-- server.py lines 177-182: the response body built in the except branch. -/
def enhanceErrorBody (request : BrowserMemoryRequest) (e : String) : EnhancementResponse :=
  { enhancedResponse :=
      errApologyIntro ++ request.query ++ "\x27: "
        ++ (if request.relevantMemories.isEmpty then "No relevant memories were found."
            else errMemoriesLine request.relevantMemories.length),
    agentInsights := [("error", .str "Agent processing failed"), ("fallback", .bool true)],
    processingDetails := [("error", .str e)] }

/-- server.py lines 104-182, enhance_browser_memories: POST /enhance.  The
agent stream is an explicit parameter taking the HumanMessage content; an
error result stands for an exception raised inside the try block.  Both
branches return a normal response, so FastAPI replies with status 200. -/
def enhance_browser_memories (agentStream : String → Except String (List StreamChunk))
    (request : BrowserMemoryRequest) : HttpReply :=
  match agentStream (request_content request) with
  | .ok chunks => { status := 200, body := enhanceSuccessBody request (collect_response_content chunks) }
  | .error e => { status := 200, body := enhanceErrorBody request e }

/-- Output of one crew task (agent.py; raw is absent-or-None when none). -/
structure TaskOutput where
  raw : Option String
deriving DecidableEq

/-- Result object of a crew kickoff (agent.py): the structured raw text of
the final result, the per-task outputs, and its stringification. -/
structure CrewOutput where
  raw : Option String
  tasks_output : Option (List TaskOutput)
  strRepr : String
deriving DecidableEq

/-- Python truthiness of an optional string attribute: present and
non-empty. -/
def truthy : Option String → Bool
  | some s => s != ""
  | none => false

/-- agent.py lines 55-67: the fallback chain after the structured raw text
was found absent or empty: last task raw output, then stringification. -/
def extract_from_tasks (crew_result : CrewOutput) : String :=
  match crew_result.tasks_output with
  | some ts =>
    if !ts.isEmpty then
      match ts.getLast? with
      | some final_task_output =>
        if truthy final_task_output.raw then pyStrip (final_task_output.raw.getD "")
        else pyStrip crew_result.strRepr
      | none => pyStrip crew_result.strRepr
    else pyStrip crew_result.strRepr
  | none => pyStrip crew_result.strRepr

/-- agent.py lines 48-67: result extraction from a completed kickoff:
prefer the structured raw text when present and non-empty. -/
def extract_crew_result (crew_result : CrewOutput) : String :=
  if truthy crew_result.raw then pyStrip (crew_result.raw.getD "")
  else extract_from_tasks crew_result

/-- agent.py line 72: the fixed fallback string of the except branch. -/
def crewErrorFallback : String :=
  "Hey! I see you\x27ve been browsing some interesting stuff. What\x27s up?"

/-- agent.py lines 31-72, enhance_memory_response: the capability wrapper.
The kickoff result is an explicit parameter; an error result stands for an
exception raised while running the orchestrator. -/
def enhance_memory_response (kickoff : Except String CrewOutput) : String :=
  match kickoff with
  | .ok crew_result => extract_crew_result crew_result
  | .error _ => crewErrorFallback

/-- The conversation state of the workflow graph (langgraph MessagesState). -/
structure MessagesState where
  messages : List ChatMessage
deriving DecidableEq

/-- The terminal node marker of the workflow graph (langgraph END). -/
def END : String := "__end__"

/-- agent.py lines 86-89, should_continue: route to the crew node when the
last message carries tool calls, otherwise end.  Indexing an empty message
list raises in Python; that is the error case. -/
def should_continue (state : MessagesState) : Except String String :=
  match state.messages.getLast? with
  | none => .error "IndexError: list index out of range"
  | some last_message => .ok (if !last_message.tool_calls.isEmpty then "memory_crew" else END)

theorem enhance_ok_eq (ag : String → Except String (List StreamChunk))
    (request : BrowserMemoryRequest) (chunks : List StreamChunk)
    (hok : ag (request_content request) = .ok chunks) :
    enhance_browser_memories ag request
      = ⟨200, enhanceSuccessBody request (collect_response_content chunks)⟩ := by
  unfold enhance_browser_memories
  rw [hok]

theorem enhance_err_eq (ag : String → Except String (List StreamChunk))
    (request : BrowserMemoryRequest) (e : String)
    (herr : ag (request_content request) = .error e) :
    enhance_browser_memories ag request = ⟨200, enhanceErrorBody request e⟩ := by
  unfold enhance_browser_memories
  rw [herr]

/-- Claim C3: on the success path of POST /enhance, agentInsights
memoriesAnalyzed equals the length of the relevantMemories array of the
request. -/
theorem enhance_memoriesAnalyzed_length (ag : String → Except String (List StreamChunk))
    (request : BrowserMemoryRequest) (chunks : List StreamChunk)
    (hok : ag (request_content request) = .ok chunks) :
    jget (enhance_browser_memories ag request).body.agentInsights "memoriesAnalyzed"
      = some (.num (request.relevantMemories.length : ℚ)) := by
  rw [enhance_ok_eq ag request chunks hok]
  simp +decide [enhanceSuccessBody, jget]

/-- Witness for claim C3 at a concrete two-memory request. -/
theorem enhance_memoriesAnalyzed_length_witness :
    jget (enhance_browser_memories (fun _ => .ok [])
        ⟨"q", [⟨"a", "c", "u", 0.9, ""⟩, ⟨"b", "c", "u", 0.1, ""⟩], []⟩).body.agentInsights
      "memoriesAnalyzed" = some (.num 2) := by
  have h := enhance_memoriesAnalyzed_length (fun _ => .ok [])
    ⟨"q", [⟨"a", "c", "u", 0.9, ""⟩, ⟨"b", "c", "u", 0.1, ""⟩], []⟩ [] rfl
  exact h.trans (by norm_num)

/-- Claim C2: on the success path of POST /enhance, agentInsights
averageRelevance equals the arithmetic mean of the similarity fields for a
non-empty relevantMemories array, and is exactly 0 for an empty one. -/
theorem enhance_averageRelevance_mean (ag : String → Except String (List StreamChunk))
    (request : BrowserMemoryRequest) (chunks : List StreamChunk)
    (hok : ag (request_content request) = .ok chunks) :
    (request.relevantMemories ≠ [] →
      jget (enhance_browser_memories ag request).body.agentInsights "averageRelevance"
        = some (.num ((request.relevantMemories.map (fun m => m.similarity)).sum
            / (request.relevantMemories.length : ℚ)))) ∧
    (request.relevantMemories = [] →
      jget (enhance_browser_memories ag request).body.agentInsights "averageRelevance"
        = some (.num 0)) := by
  rw [enhance_ok_eq ag request chunks hok]
  constructor
  · intro hne
    simp +decide [enhanceSuccessBody, jget, hne]
  · intro hnil
    simp +decide [enhanceSuccessBody, jget, hnil]

/-- Witness for claim C2: similarities 0.8 and 0.4 give exactly 3/5, and the
empty array gives exactly 0. -/
theorem enhance_averageRelevance_mean_witness :
    jget (enhance_browser_memories (fun _ => .ok [])
        ⟨"q", [⟨"a", "c", "u", 0.8, ""⟩, ⟨"b", "c", "u", 0.4, ""⟩], []⟩).body.agentInsights
      "averageRelevance" = some (.num (3/5)) ∧
    jget (enhance_browser_memories (fun _ => .ok [])
        ⟨"wassup", [], []⟩).body.agentInsights
      "averageRelevance" = some (.num 0) := by
  constructor
  · have h := (enhance_averageRelevance_mean (fun _ => .ok [])
      ⟨"q", [⟨"a", "c", "u", 0.8, ""⟩, ⟨"b", "c", "u", 0.4, ""⟩], []⟩ [] rfl).1
      (List.cons_ne_nil _ _)
    refine h.trans ?_
    norm_num
  · exact (enhance_averageRelevance_mean (fun _ => .ok []) ⟨"wassup", [], []⟩ [] rfl).2 rfl

/-- Claim C4: on the success path of POST /enhance, agentInsights topTopics
lists the titles of the first three memories in input order, and all titles
in order when fewer than three memories were supplied. -/
theorem enhance_topTopics_first_three (ag : String → Except String (List StreamChunk))
    (request : BrowserMemoryRequest) (chunks : List StreamChunk)
    (hok : ag (request_content request) = .ok chunks) :
    (3 ≤ request.relevantMemories.length →
      jget (enhance_browser_memories ag request).body.agentInsights "topTopics"
        = some (.arr (((request.relevantMemories.map (fun m => m.title)).take 3).map Jval.str))) ∧
    (request.relevantMemories.length < 3 →
      jget (enhance_browser_memories ag request).body.agentInsights "topTopics"
        = some (.arr ((request.relevantMemories.map (fun m => m.title)).map Jval.str))) := by
  rw [enhance_ok_eq ag request chunks hok]
  constructor
  · intro _
    simp +decide [enhanceSuccessBody, jget, List.map_take, List.map_map, Function.comp_def]
  · intro hlt
    simp +decide [enhanceSuccessBody, jget, List.take_of_length_le (le_of_lt hlt),
      List.map_map, Function.comp_def]

/-- Witness for claim C4 at a four-memory and a two-memory request. -/
theorem enhance_topTopics_first_three_witness :
    jget (enhance_browser_memories (fun _ => .ok [])
        ⟨"q", [⟨"a", "c", "u", 0.1, ""⟩, ⟨"b", "c", "u", 0.2, ""⟩,
               ⟨"c", "c", "u", 0.3, ""⟩, ⟨"d", "c", "u", 0.4, ""⟩], []⟩).body.agentInsights
      "topTopics" = some (.arr [.str "a", .str "b", .str "c"]) ∧
    jget (enhance_browser_memories (fun _ => .ok [])
        ⟨"q", [⟨"a", "c", "u", 0.1, ""⟩, ⟨"b", "c", "u", 0.2, ""⟩], []⟩).body.agentInsights
      "topTopics" = some (.arr [.str "a", .str "b"]) := by
  constructor
  · have h := (enhance_topTopics_first_three (fun _ => .ok [])
      ⟨"q", [⟨"a", "c", "u", 0.1, ""⟩, ⟨"b", "c", "u", 0.2, ""⟩,
             ⟨"c", "c", "u", 0.3, ""⟩, ⟨"d", "c", "u", 0.4, ""⟩], []⟩ [] rfl).1 (by simp)
    exact h.trans rfl
  · have h := (enhance_topTopics_first_three (fun _ => .ok [])
      ⟨"q", [⟨"a", "c", "u", 0.1, ""⟩, ⟨"b", "c", "u", 0.2, ""⟩], []⟩ [] rfl).2 (by simp)
    exact h.trans rfl

/-- Claim C10: on the success path of POST /enhance, agentInsights is a
function of relevantMemories alone; requests differing only in query and
userContext produce identical agentInsights. -/
theorem agentInsights_function_of_memories
    (ag1 ag2 : String → Except String (List StreamChunk))
    (req1 req2 : BrowserMemoryRequest) (ch1 ch2 : List StreamChunk)
    (hmem : req1.relevantMemories = req2.relevantMemories)
    (h1 : ag1 (request_content req1) = .ok ch1)
    (h2 : ag2 (request_content req2) = .ok ch2) :
    (enhance_browser_memories ag1 req1).body.agentInsights
      = (enhance_browser_memories ag2 req2).body.agentInsights := by
  rw [enhance_ok_eq ag1 req1 ch1 h1, enhance_ok_eq ag2 req2 ch2 h2]
  simp [enhanceSuccessBody, hmem]

/-- Witness for claim C10: equal memories, different query and context. -/
theorem agentInsights_function_of_memories_witness :
    (enhance_browser_memories (fun _ => .ok [])
        ⟨"q1", [⟨"t", "c", "u", 0.5, ""⟩], []⟩).body.agentInsights
      = (enhance_browser_memories (fun _ => .ok [])
        ⟨"q2", [⟨"t", "c", "u", 0.5, ""⟩], ["prior context"]⟩).body.agentInsights :=
  agentInsights_function_of_memories (fun _ => .ok []) (fun _ => .ok [])
    ⟨"q1", [⟨"t", "c", "u", 0.5, ""⟩], []⟩
    ⟨"q2", [⟨"t", "c", "u", 0.5, ""⟩], ["prior context"]⟩ [] [] rfl rfl rfl

/-- Claim C1: whenever an exception is raised while building or returning
the enhancement response, POST /enhance still returns HTTP 200, the
enhancedResponse embeds the literal query text and, for a non-empty
relevantMemories array, a mention of the memory count, and agentInsights
carries an error marker. -/
theorem enhance_exception_returns_masked_200
    (ag : String → Except String (List StreamChunk))
    (request : BrowserMemoryRequest) (e : String)
    (herr : ag (request_content request) = .error e) :
    (enhance_browser_memories ag request).status = 200 ∧
    containsText (enhance_browser_memories ag request).body.enhancedResponse request.query ∧
    (request.relevantMemories ≠ [] →
      containsText (enhance_browser_memories ag request).body.enhancedResponse
        (toString request.relevantMemories.length ++ " relevant memories")) ∧
    jget (enhance_browser_memories ag request).body.agentInsights "error"
      = some (.str "Agent processing failed") := by
  rw [enhance_err_eq ag request e herr]
  refine ⟨rfl, ?_, ?_, ?_⟩
  · refine ⟨errApologyIntro,
      "\x27: " ++ (if request.relevantMemories.isEmpty then "No relevant memories were found."
        else errMemoriesLine request.relevantMemories.length), ?_⟩
    simp [enhanceErrorBody, String.append_assoc]
  · intro hne
    cases hm : request.relevantMemories with
    | nil => exact absurd hm hne
    | cons m ms =>
      refine ⟨errApologyIntro ++ request.query ++ "\x27: " ++ "You have ",
        " that might help answer this question.", ?_⟩
      simp [enhanceErrorBody, errMemoriesLine, hm, String.append_assoc]
      congr 1
  · simp +decide [enhanceErrorBody, jget]

/-- Witness for claim C1 at a concrete request and a raising agent stream. -/
theorem enhance_exception_returns_masked_200_witness :
    (enhance_browser_memories (fun _ => .error "boom")
        ⟨"findme", [⟨"t", "c", "u", 0.5, ""⟩], []⟩).status = 200 ∧
    containsText (enhance_browser_memories (fun _ => .error "boom")
        ⟨"findme", [⟨"t", "c", "u", 0.5, ""⟩], []⟩).body.enhancedResponse "findme" ∧
    containsText (enhance_browser_memories (fun _ => .error "boom")
        ⟨"findme", [⟨"t", "c", "u", 0.5, ""⟩], []⟩).body.enhancedResponse
      "1 relevant memories" ∧
    jget (enhance_browser_memories (fun _ => .error "boom")
        ⟨"findme", [⟨"t", "c", "u", 0.5, ""⟩], []⟩).body.agentInsights "error"
      = some (.str "Agent processing failed") := by
  have h := enhance_exception_returns_masked_200 (fun _ => .error "boom")
    ⟨"findme", [⟨"t", "c", "u", 0.5, ""⟩], []⟩ "boom" rfl
  exact ⟨h.1, h.2.1, h.2.2.1 (List.cons_ne_nil _ _), h.2.2.2⟩

/-- Claim C5: the prompt passed downstream renders each memory as a
Title/URL/Content/Relevance block in input order joined with blank lines,
renders a userContext array of N strings as those N strings newline-joined
in original order, and renders an empty userContext as the fixed
placeholder phrase. -/
theorem enhance_prompt_rendering (request : BrowserMemoryRequest) :
    request_content request
      = "Query: " ++ request.query ++ "\n\nRelevant Memories:\n"
        ++ String.intercalate "\n\n" (request.relevantMemories.map (fun memory =>
             "Title: " ++ memory.title ++ "\n" ++ "URL: " ++ memory.url ++ "\n"
               ++ "Content: " ++ memory.content ++ "\n"
               ++ "Relevance: " ++ formatFixed2 memory.similarity))
        ++ "\n\nUser Context:\n"
        ++ (if request.userContext.isEmpty then "No previous context"
            else String.intercalate "\n" request.userContext) := by
  cases h : request.userContext.isEmpty <;> simp [request_content, h]

/-- Claim C6: the capability wrapper extracts the crew result with this
priority: the structured raw text of the final result when present and
non-empty; else the raw output of the last task when present and
non-empty; else the stringification of the whole result object. -/
theorem crew_extraction_priority_order (c : CrewOutput) :
    (∀ r : String, c.raw = some r → r ≠ "" →
      enhance_memory_response (.ok c) = pyStrip r) ∧
    (truthy c.raw = false →
      ∀ ts t lr, c.tasks_output = some ts → ts.getLast? = some t →
        t.raw = some lr → lr ≠ "" →
        enhance_memory_response (.ok c) = pyStrip lr) ∧
    (truthy c.raw = false →
      (∀ ts t, c.tasks_output = some ts → ts.getLast? = some t → truthy t.raw = false) →
      enhance_memory_response (.ok c) = pyStrip c.strRepr) := by
  refine ⟨?_, ?_, ?_⟩
  · intro r hr hne
    simp [enhance_memory_response, extract_crew_result, truthy, hr, hne]
  · intro hfalse ts t lr hts hlast hraw hne
    cases ts with
    | nil => simp at hlast
    | cons a as =>
      simp only [enhance_memory_response, extract_crew_result, hfalse, Bool.false_eq_true,
        if_false, extract_from_tasks, hts]
      rw [hlast]
      simp [truthy, hraw, hne]
  · intro hfalse hall
    simp only [enhance_memory_response, extract_crew_result, hfalse, Bool.false_eq_true,
      if_false]
    cases hto : c.tasks_output with
    | none => simp [extract_from_tasks, hto]
    | some ts =>
      cases ts with
      | nil => simp [extract_from_tasks, hto]
      | cons a as =>
        have hl := List.getLast?_eq_getLast_of_ne_nil (l := a :: as) (List.cons_ne_nil _ _)
        have htf := hall (a :: as) ((a :: as).getLast (List.cons_ne_nil _ _)) hto hl
        simp [extract_from_tasks, hto, hl, htf]

/-- Witness for claim C6: one concrete crew result per priority level. -/
theorem crew_extraction_priority_order_witness :
    enhance_memory_response (.ok ⟨some " final ", some [⟨some "task"⟩], "repr"⟩) = "final" ∧
    enhance_memory_response
      (.ok ⟨some "", some [⟨some " task "⟩, ⟨some " last "⟩], "repr"⟩) = "last" ∧
    enhance_memory_response (.ok ⟨none, some [⟨some ""⟩], " repr "⟩) = "repr" := by
  refine ⟨?_, ?_, ?_⟩
  · have h := (crew_extraction_priority_order ⟨some " final ", some [⟨some "task"⟩], "repr"⟩).1
      " final " rfl (by decide)
    exact h.trans (by decide)
  · have h := (crew_extraction_priority_order
      ⟨some "", some [⟨some " task "⟩, ⟨some " last "⟩], "repr"⟩).2.1 rfl
      [⟨some " task "⟩, ⟨some " last "⟩] ⟨some " last "⟩ " last " rfl rfl rfl (by decide)
    exact h.trans (by decide)
  · have hall : ∀ ts t, (some [⟨some ""⟩] : Option (List TaskOutput)) = some ts →
        ts.getLast? = some t → truthy t.raw = false := by
      intro ts t h1 h2
      injection h1 with h1
      subst h1
      have h2' : some (⟨some ""⟩ : TaskOutput) = some t := h2
      injection h2' with h2'
      subst h2'
      rfl
    have h := (crew_extraction_priority_order ⟨none, some [⟨some ""⟩], " repr "⟩).2.2 rfl hall
    exact h.trans (by decide)

/-- Claim C7: any exception raised while running the orchestrator is caught
by the capability wrapper and converted to the fixed fallback string, which
begins with Hey! and ends with the whats-up phrase; no error propagates. -/
theorem crew_exception_fixed_fallback (e : String) :
    enhance_memory_response (.error e) = crewErrorFallback ∧
    (∃ rest, crewErrorFallback = "Hey!" ++ rest) ∧
    (∃ pre, crewErrorFallback = pre ++ "What\x27s up?") :=
  ⟨rfl, ⟨" I see you\x27ve been browsing some interesting stuff. What\x27s up?", rfl⟩,
    ⟨"Hey! I see you\x27ve been browsing some interesting stuff. ", rfl⟩⟩

/-- Claim C8: the continuation decision of the router routes to the
capability node exactly when the last message of the state carries a tool
call, and to the terminal marker when it carries none. -/
theorem should_continue_tool_call_routing (state : MessagesState) (last_message : ChatMessage)
    (hlast : state.messages.getLast? = some last_message) :
    (should_continue state = .ok "memory_crew" ↔ last_message.tool_calls ≠ []) ∧
    (last_message.tool_calls = [] → should_continue state = .ok END) := by
  unfold should_continue
  rw [hlast]
  cases htc : last_message.tool_calls with
  | nil => simp +decide [htc, END]
  | cons a as => simp +decide [htc]

/-- Witness for claim C8: one state whose last message carries a tool call
and one whose last message carries none. -/
theorem should_continue_tool_call_routing_witness :
    should_continue ⟨[⟨"ai", "x", [⟨"1", "enhance_memory_response"⟩]⟩]⟩ = .ok "memory_crew" ∧
    should_continue ⟨[⟨"ai", "x", []⟩]⟩ = .ok END := by
  constructor
  · exact ((should_continue_tool_call_routing
      ⟨[⟨"ai", "x", [⟨"1", "enhance_memory_response"⟩]⟩]⟩ _ rfl).1).mpr (by simp)
  · exact (should_continue_tool_call_routing ⟨[⟨"ai", "x", []⟩]⟩ _ rfl).2 rfl

/-- Counterexample to claim C9: a request whose only memory has similarity 2,
outside [0,1], is accepted and fully processed by POST /enhance; the model
layer carries no range constraint. -/
theorem similarity_out_of_range_processed_cex :
    (1 : ℚ) < (⟨"t", "c", "u", 2, ""⟩ : BrowserMemory).similarity ∧
    (enhance_browser_memories (fun _ => .ok [])
        ⟨"q", [⟨"t", "c", "u", 2, ""⟩], []⟩).status = 200 ∧
    jget (enhance_browser_memories (fun _ => .ok [])
        ⟨"q", [⟨"t", "c", "u", 2, ""⟩], []⟩).body.agentInsights "memoriesAnalyzed"
      = some (.num 1) ∧
    jget (enhance_browser_memories (fun _ => .ok [])
        ⟨"q", [⟨"t", "c", "u", 2, ""⟩], []⟩).body.agentInsights "averageRelevance"
      = some (.num 2) := by
  refine ⟨by norm_num, ?_, ?_, ?_⟩
  · rw [enhance_ok_eq _ _ [] rfl]
  · rw [enhance_ok_eq _ _ [] rfl]
    simp +decide [enhanceSuccessBody, jget]
  · rw [enhance_ok_eq _ _ [] rfl]
    simp +decide [enhanceSuccessBody, jget]

/-- Claim C9 (amended): the similarity field is not validated; a request
containing a memory with similarity outside [0,1] is accepted and processed
exactly like any other request on the success path. -/
theorem similarity_unvalidated_accepted
    (ag : String → Except String (List StreamChunk))
    (request : BrowserMemoryRequest) (chunks : List StreamChunk)
    (hok : ag (request_content request) = .ok chunks)
    (_hbad : ∃ m ∈ request.relevantMemories, m.similarity < 0 ∨ 1 < m.similarity) :
    (enhance_browser_memories ag request).status = 200 ∧
    jget (enhance_browser_memories ag request).body.agentInsights "memoriesAnalyzed"
      = some (.num (request.relevantMemories.length : ℚ)) := by
  rw [enhance_ok_eq ag request chunks hok]
  exact ⟨rfl, by simp +decide [enhanceSuccessBody, jget]⟩

/-- Witness for the amended claim C9 at a request with similarity 2. -/
theorem similarity_unvalidated_witness :
    (enhance_browser_memories (fun _ => .ok [])
        ⟨"q", [⟨"t", "c", "u", 2, ""⟩], []⟩).status = 200 ∧
    jget (enhance_browser_memories (fun _ => .ok [])
        ⟨"q", [⟨"t", "c", "u", 2, ""⟩], []⟩).body.agentInsights "memoriesAnalyzed"
      = some (.num 1) := by
  have h := similarity_unvalidated_accepted (fun _ => .ok [])
    ⟨"q", [⟨"t", "c", "u", 2, ""⟩], []⟩ [] rfl
    ⟨⟨"t", "c", "u", 2, ""⟩, by simp, Or.inr (by norm_num)⟩
  exact ⟨h.1, h.2.trans (by norm_num)⟩
